import Mathlib

/-!
Verification development for the paperless-ngx document ingestion and mail
pipeline.  The definitions below are shallow embeddings of the Python source
files `documents/data_models.py`, `documents/tasks.py` and
`paperless_mail/mail.py`; theorems settle the specification claims about them.
-/

/-! ## Data models (`documents/data_models.py`) -/

/-- Modelled from the library contract of `datetime.isoformat`: an ISO-8601
text uniquely encodes the instant it denotes, so the serialized text is
represented here by that instant.  `dateutil.isoparse` inverts it. -/
structure IsoText where
  instant : Int
deriving DecidableEq, Repr

/-- A Python `datetime.datetime` value, represented by the instant it denotes. -/
structure PyDateTime where
  instant : Int
deriving DecidableEq, Repr

def PyDateTime.isoformat (d : PyDateTime) : IsoText := ⟨d.instant⟩

def isoparse (s : IsoText) : PyDateTime := ⟨s.instant⟩

/-- `DocumentMetadataOverrides`: overrides for document fields which normally
would be set from content or matching.  All fields default to `none`, meaning
no override is happening. -/
structure DocumentMetadataOverrides where
  filename : Option String := none
  title : Option String := none
  correspondent_id : Option Int := none
  document_type_id : Option Int := none
  tag_ids : Option (List Int) := none
  created : Option PyDateTime := none
  asn : Option Int := none
  owner_id : Option Int := none
deriving DecidableEq, Repr

/-- The dictionary produced by `DocumentMetadataOverrides.as_dict`, with one
field per dictionary key (note the key is `archive_serial_num`, not `asn`). -/
structure OverridesDict where
  filename : Option String
  title : Option String
  correspondent_id : Option Int
  document_type_id : Option Int
  archive_serial_num : Option Int
  tag_ids : Option (List Int)
  created : Option IsoText
  owner_id : Option Int
deriving DecidableEq, Repr

def DocumentMetadataOverrides.as_dict (o : DocumentMetadataOverrides) : OverridesDict :=
  { filename := o.filename
    title := o.title
    correspondent_id := o.correspondent_id
    document_type_id := o.document_type_id
    archive_serial_num := o.asn
    tag_ids := o.tag_ids
    created := o.created.map PyDateTime.isoformat
    owner_id := o.owner_id }

/-- `DocumentMetadataOverrides.from_dict`: positional construction from the
named dictionary entries, mirroring the Python argument order
(filename, title, correspondent, document type, tags, created, asn, owner). -/
def DocumentMetadataOverrides.from_dict (data : Option OverridesDict) :
    DocumentMetadataOverrides :=
  match data with
  | none => {}
  | some d =>
    { filename := d.filename
      title := d.title
      correspondent_id := d.correspondent_id
      document_type_id := d.document_type_id
      tag_ids := d.tag_ids
      created := d.created.map isoparse
      asn := d.archive_serial_num
      owner_id := d.owner_id }

/-- `DocumentSource` enum; `enum.auto` gives the values 1, 2, 3. -/
inductive DocumentSource
  | CONSUME_FOLDER
  | API_UPLOAD
  | MAIL_FETCH
deriving DecidableEq, Repr

def DocumentSource.toInt : DocumentSource → Int
  | .CONSUME_FOLDER => 1
  | .API_UPLOAD => 2
  | .MAIL_FETCH => 3

/-- `DocumentSource(value)`: Python raises `ValueError` for an int outside the
enum, modelled by `none`. -/
def DocumentSource.ofInt (i : Int) : Option DocumentSource :=
  if i = 1 then some .CONSUME_FOLDER
  else if i = 2 then some .API_UPLOAD
  else if i = 3 then some .MAIL_FETCH
  else none

/-- The filesystem facts that `ConsumableDocument.__post_init__` depends on:
`Path.resolve` and `magic.from_file(path, mime=True)` are modelled as
functions of this environment. -/
structure FileSystem where
  resolve : String → String
  from_file_mime : String → String

/-- `ConsumableDocument`: an incoming document from consume folder, API upload
or mail fetching. -/
structure ConsumableDocument where
  source : DocumentSource
  original_file : String
  mime_type : Option String
deriving DecidableEq, Repr

/-- `ConsumableDocument(...)` followed by `__post_init__`: resolve the path,
and detect the mime type with `magic` only when it was not already set.  The
returned Bool records whether mime detection ran. -/
def ConsumableDocument.init (fs : FileSystem) (source : DocumentSource)
    (original_file : String) (mime_type : Option String := none) :
    ConsumableDocument × Bool :=
  let p := fs.resolve original_file
  match mime_type with
  | some m => (⟨source, p, some m⟩, false)
  | none => (⟨source, p, some (fs.from_file_mime p)⟩, true)

/-- The dictionary produced by `ConsumableDocument.as_dict`. -/
structure ConsumableDict where
  source : Int
  original_file : String
  mime_type : Option String
deriving DecidableEq, Repr

def ConsumableDocument.as_dict (d : ConsumableDocument) : ConsumableDict :=
  { source := d.source.toInt
    original_file := d.original_file
    mime_type := d.mime_type }

/-- `ConsumableDocument.from_dict`: reconstructs the dataclass (running
`__post_init__` again, as Python does); an invalid source int raises
`ValueError`. -/
def ConsumableDict.from_dict (fs : FileSystem) (data : ConsumableDict) :
    Except String (ConsumableDocument × Bool) :=
  match DocumentSource.ofInt data.source with
  | none => .error "ValueError: not a valid DocumentSource"
  | some s => .ok (ConsumableDocument.init fs s data.original_file data.mime_type)

/-! ## Python string helpers

Python string literals and operations are embedded over `List Char` so every
operation evaluates inside the kernel.  `pyLower` is `str.lower`, `pyStrip` is
`str.strip`, `splitOnChar` is `str.split` with a one-character separator, and
`containsSub` is the substring test of Python's `in` operator. -/

def pyLower (s : List Char) : List Char := s.map Char.toLower

def isSpaceChar (c : Char) : Bool := c = ' ' || c = '\t' || c = '\n' || c = '\r'

def pyStrip (s : List Char) : List Char :=
  ((s.dropWhile isSpaceChar).reverse.dropWhile isSpaceChar).reverse

def splitOnChar (sep : Char) : List Char → List (List Char)
  | [] => [[]]
  | c :: rest =>
    let r := splitOnChar sep rest
    if c = sep then [] :: r
    else
      match r with
      | h :: t => (c :: h) :: t
      | [] => [[c]]

def isPre (needle hay : List Char) : Bool :=
  match needle, hay with
  | [], _ => true
  | _ :: _, [] => false
  | a :: as, b :: bs => a = b && isPre as bs

def containsSub (needle : List Char) : List Char → Bool
  | [] => isPre needle []
  | hay@(_ :: rest) => isPre needle hay || containsSub needle rest

/-! ## Mail actions (`paperless_mail/mail.py`) -/

/-- Python exceptions that the mail module raises or propagates. -/
inductive PyExc
  | mailError (msg : String)
  | valueError (msg : String)
  | other (msg : String)
deriving DecidableEq, Repr

/-- The `APPLE_MAIL_TAG_COLORS` table: color name to `$MailFlagBit` keywords. -/
def APPLE_MAIL_TAG_COLORS : List (List Char × List String) :=
  [("red".toList, []),
   ("orange".toList, ["$MailFlagBit0"]),
   ("yellow".toList, ["$MailFlagBit1"]),
   ("blue".toList, ["$MailFlagBit2"]),
   ("green".toList, ["$MailFlagBit0", "$MailFlagBit1"]),
   ("violet".toList, ["$MailFlagBit0", "$MailFlagBit2"]),
   ("grey".toList, ["$MailFlagBit1", "$MailFlagBit2"])]

/-- Python `"apple:" in parameter.lower()` (substring containment). -/
def appleMode (parameter : List Char) : Bool :=
  containsSub "apple:".toList (pyLower parameter)

/-- Membership in `APPLE_MAIL_TAG_COLORS.keys()`. -/
def validAppleColor (c : List Char) : Bool :=
  (APPLE_MAIL_TAG_COLORS.map Prod.fst).contains c

/-- The two fields `TagMailAction.__init__` sets: exactly which one is `none`
depends on the parameter mode. -/
structure TagMailAction where
  color : Option (List Char)
  keyword : Option (List Char)
deriving DecidableEq, Repr

/-- `TagMailAction.__init__`: in apple mode, `_, self.color = parameter.split(":")`
(a list of any other length raises `ValueError` from tuple unpacking), the
color is stripped and checked against the table (else `MailError`); otherwise
the parameter becomes the keyword. -/
def TagMailAction.init (parameter : List Char) : Except PyExc TagMailAction :=
  if appleMode parameter then
    match splitOnChar ':' parameter with
    | [_, c] =>
      let color := pyStrip c
      if validAppleColor (pyLower color) then .ok ⟨some color, none⟩
      else .error (.mailError "Not a valid AppleMail tag color.")
    | parts =>
      .error (.valueError ("cannot unpack list of length " ++ toString parts.length))
  else .ok ⟨none, some parameter⟩

/-- Python truthiness of an optional string: `None` and `""` are falsy. -/
def pyTruthy : Option (List Char) → Bool
  | none => false
  | some s => !s.isEmpty

/-- The criteria values the mail actions return from `get_criteria`. -/
inductive MailCriteria
  | empty
  | seenFalse
  | flaggedFalse
  | notGmailLabelAndNoKeyword (k : List Char)
deriving DecidableEq, Repr

/-- `TagMailAction.get_criteria`: flagged check in apple mode, keyword query
otherwise, and a `ValueError` on the branch the code marks unreachable. -/
def TagMailAction.get_criteria (a : TagMailAction) : Except PyExc MailCriteria :=
  if pyTruthy a.color then .ok .flaggedFalse
  else if pyTruthy a.keyword then .ok (.notGmailLabelAndNoKeyword (a.keyword.getD []))
  else .error (.valueError "This should never happen.")

/-! ## Authentication and per-account rule loop (`paperless_mail/mail.py`) -/

/-- Outcome of one call of `MailBox.login` / `MailBox.login_utf8` (success,
a non-ASCII credential encoding failure, or any other exception). -/
inductive LoginAttemptResult
  | ok
  | unicodeEncodeError
  | otherError
deriving DecidableEq, Repr

/-- Which authentication mechanism ended up being used. -/
inductive AuthMech
  | primary
  | authPlainUtf8
deriving DecidableEq, Repr

/-- `mailbox_login`: try `mailbox.login` first; on `UnicodeEncodeError` fall
back to `mailbox.login_utf8` (AUTH=PLAIN), whose failure raises `MailError`;
any other exception from the primary attempt raises `MailError` directly. -/
def mailbox_login (primaryAttempt : LoginAttemptResult) (utf8Succeeds : Bool)
    (account : String) : Except PyExc AuthMech :=
  match primaryAttempt with
  | .ok => .ok .primary
  | .unicodeEncodeError =>
    if utf8Succeeds then .ok .authPlainUtf8
    else .error (.mailError ("Error while authenticating account " ++ account))
  | .otherError =>
    .error (.mailError ("Error while authenticating account " ++ account))

/-- `MailRule.ConsumptionScope`. -/
inductive ConsumptionScope
  | ATTACHMENTS_ONLY
  | EML_ONLY
  | EVERYTHING
deriving DecidableEq, Repr

/-- `MailRule.AttachmentProcessing`. -/
inductive AttachmentProcessing
  | ATTACHMENTS_ONLY
  | EVERYTHING
deriving DecidableEq, Repr

/-- `MailRule.TitleSource`. -/
inductive TitleSource
  | FROM_SUBJECT
  | FROM_FILENAME
deriving DecidableEq, Repr

/-- The fields of the `MailRule` model that `paperless_mail/mail.py` reads. -/
structure MailRuleRec where
  pk : Nat
  order : Int
  folder : String
  consumption_scope : ConsumptionScope := .ATTACHMENTS_ONLY
  attachment_type : AttachmentProcessing := .EVERYTHING
  filter_attachment_filename : Option (List Char) := none
  assign_title_from : TitleSource := .FROM_SUBJECT
  assign_tag_ids : List Int := []
  assign_document_type_id : Option Int := none
  owner_id : Option Int := none
deriving DecidableEq, Repr

/-- A rule with only pk, order and folder distinguished; the remaining
fields take their defaults. -/
def mkRule (pk : Nat) (order : Int) (folder : String) : MailRuleRec :=
  { pk := pk, order := order, folder := folder }

/-- `account.rules.order_by("order")`. -/
def rulesOrderedBy (rules : List MailRuleRec) : List MailRuleRec :=
  rules.mergeSort (fun a b => a.order ≤ b.order)

/-- What one run of `MailAccountHandler.handle_mail_account` did: which rules
`_handle_mail_rule` was invoked for (by pk, in invocation order), the returned
total, and the exception it re-raised, if any. -/
structure AccountTrace where
  rulesEvaluated : List Nat
  totalProcessedFiles : Nat
  raised : Option PyExc
deriving DecidableEq, Repr

/-- `MailAccountHandler.handle_mail_account`: login (a `MailError` escapes via
`except MailError: raise`, before any rule runs), then iterate the rules in
ascending `order`; each rule body is wrapped in `try/except Exception`, which
logs and continues, so a rule's exception never stops the loop.  The outcome
of `_handle_mail_rule` for each rule is supplied by `runRule`. -/
def handle_mail_account (primaryAttempt : LoginAttemptResult) (utf8Succeeds : Bool)
    (account : String) (rules : List MailRuleRec)
    (runRule : MailRuleRec → Except PyExc Nat) : AccountTrace :=
  match mailbox_login primaryAttempt utf8Succeeds account with
  | .error e => ⟨[], 0, some e⟩
  | .ok _ =>
    let step := fun (acc : List Nat × Nat) (r : MailRuleRec) =>
      match runRule r with
      | .ok n => (acc.1 ++ [r.pk], acc.2 + n)
      | .error _ => (acc.1 ++ [r.pk], acc.2)
    let res := (rulesOrderedBy rules).foldl step ([], 0)
    ⟨res.1, res.2, none⟩

/-! ## Batch completion: chord, `apply_mail_action`, `error_callback` -/

/-- Terminal state of one `consume_file` task of a message's batch. -/
inductive TaskResult
  | success
  | failure
deriving DecidableEq, Repr

/-- `ProcessedMail.status` values written by the mail module. -/
inductive LedgerStatus
  | SUCCESS
  | FAILED
deriving DecidableEq, Repr

/-- A `ProcessedMail` row as created by `apply_mail_action` / `error_callback`. -/
structure ProcessedMailEntry where
  rulePk : Nat
  folder : String
  uid : String
  status : LedgerStatus
deriving DecidableEq, Repr

/-- Observable effects of the completion stage of one message's batch. -/
inductive ChordEvent
  | postConsumeInvoked (rulePk : Nat) (uid : String)
  | ledgerWrite (entry : ProcessedMailEntry)
deriving DecidableEq, Repr

/-- `apply_mail_action` (the chord body): reconnect, select the rule's folder
and run `action.post_consume`, then create a SUCCESS `ProcessedMail` row; any
exception instead creates a FAILED row and is re-raised.  `connectOk` is
whether the reconnect/login/folder-select part succeeds, `actionOk` whether
`post_consume` itself does. -/
def apply_mail_action (rule : MailRuleRec) (uid : String)
    (connectOk actionOk : Bool) : List ChordEvent × Option PyExc :=
  if connectOk then
    if actionOk then
      ([.postConsumeInvoked rule.pk uid,
        .ledgerWrite ⟨rule.pk, rule.folder, uid, .SUCCESS⟩], none)
    else
      ([.postConsumeInvoked rule.pk uid,
        .ledgerWrite ⟨rule.pk, rule.folder, uid, .FAILED⟩],
       some (.other "post_consume raised"))
  else
    ([.ledgerWrite ⟨rule.pk, rule.folder, uid, .FAILED⟩],
     some (.other "mailbox connection raised"))

/-- `error_callback`: writes a FAILED `ProcessedMail` row for the message and
nothing else — in particular it performs no mail-side action. -/
def error_callback (rule : MailRuleRec) (uid : String) : List ChordEvent :=
  [.ledgerWrite ⟨rule.pk, rule.folder, uid, .FAILED⟩]

/-- Modelled from the spec: the task-scheduler collaborator contract for the
fan-out/fan-in group queued by `queue_consumption_tasks` (a celery chord with
`on_error`): the body `apply_mail_action` runs once every header task has
reached a terminal state and all succeeded; if any member fails, the error
callback is invoked once instead. -/
def chordCompletion (headerResults : List TaskResult) (rule : MailRuleRec)
    (uid : String) (connectOk actionOk : Bool) : List ChordEvent :=
  if headerResults.all (fun r => r = .success) then
    (apply_mail_action rule uid connectOk actionOk).1
  else error_callback rule uid

/-! ## Message selection and attachment processing (`MailAccountHandler`) -/

/-- One attachment of a fetched message.  `payload_mime` is the mime type
`magic.from_buffer(att.payload, mime=True)` detects for its payload. -/
structure MailAttachment where
  filename : List Char
  content_disposition : String
  payload_mime : String
deriving DecidableEq, Repr

/-- The fields of a fetched `MailMessage` that the handler reads. -/
structure MailMessageRec where
  uid : String
  subject : String
  from_ : String
  attachments : List MailAttachment
deriving DecidableEq, Repr

/-- External helpers the handler calls: `fnmatch` on lowercased
filename/pattern, `documents.parsers.is_mime_type_supported`, and
`pathvalidate.sanitize_filename`. -/
structure MailEnv where
  fnmatchLower : List Char → List Char → Bool
  is_mime_type_supported : String → Bool
  sanitize_filename : List Char → String

/-- `os.path.basename` (the part after the last '/'). -/
def basenameOf (f : List Char) : List Char :=
  (splitOnChar '/' f).getLastD []

/-- Helper for `splitextStem`: splits at the last '.' when one exists. -/
def splitextAux : List Char → Option (List Char × List Char)
  | [] => none
  | c :: rest =>
    match splitextAux rest with
    | some (s, e) => some (c :: s, e)
    | none => if c = '.' then some ([], '.' :: rest) else none

/-- `os.path.splitext(b)[0]`: drop the extension after the last dot, unless
every character before that dot is itself a dot (Python's leading-dot rule). -/
def splitextStem (b : List Char) : List Char :=
  match splitextAux b with
  | some (stem, _) => if stem.all (fun c => c = '.') then b else stem
  | none => b

/-- `MailAccountHandler._get_title`. -/
def _get_title (message : MailMessageRec) (att : MailAttachment)
    (rule : MailRuleRec) : String :=
  match rule.assign_title_from with
  | .FROM_SUBJECT => message.subject
  | .FROM_FILENAME => String.mk (splitextStem (basenameOf att.filename))

/-- The `DocumentMetadataOverrides` built for one surviving attachment. -/
def attachmentTask (env : MailEnv) (message : MailMessageRec)
    (rule : MailRuleRec) (correspondent_id : Option Int)
    (att : MailAttachment) : DocumentMetadataOverrides :=
  { title := some (_get_title message att rule)
    filename := some (env.sanitize_filename att.filename)
    correspondent_id := correspondent_id
    document_type_id := rule.assign_document_type_id
    tag_ids := some rule.assign_tag_ids
    owner_id := rule.owner_id }

/-- The `DocumentMetadataOverrides` built for the message-as-eml document. -/
def emlTask (env : MailEnv) (message : MailMessageRec) (rule : MailRuleRec)
    (correspondent_id : Option Int) : DocumentMetadataOverrides :=
  { title := some message.subject
    filename := some (env.sanitize_filename (message.subject.toList ++ ".eml".toList))
    correspondent_id := correspondent_id
    document_type_id := rule.assign_document_type_id
    tag_ids := some rule.assign_tag_ids
    owner_id := rule.owner_id }

/-- A call of `queue_consumption_tasks`: the chord queued for one message,
with the batch of consume tasks (each identified by its overrides). -/
inductive QueueEvent
  | chordQueued (rulePk : Nat) (uid : String) (tasks : List DocumentMetadataOverrides)
deriving DecidableEq, Repr

def QueueEvent.uid : QueueEvent → String
  | .chordQueued _ u _ => u

/-- `MailAccountHandler._process_attachments`: filter the attachments by
disposition, filename glob and supported mime type, build one consume task per
survivor, and queue the batch — the `queue_consumption_tasks` call is outside
every filter, so it happens even for an empty batch.  Returns the events and
the number of processed attachments. -/
def _process_attachments (env : MailEnv) (message : MailMessageRec)
    (rule : MailRuleRec) (correspondent_id : Option Int) :
    List QueueEvent × Nat :=
  let consume_tasks := message.attachments.filterMap (fun att =>
    if att.content_disposition ≠ "attachment" ∧
        rule.attachment_type = .ATTACHMENTS_ONLY then
      none
    else if (match rule.filter_attachment_filename with
             | some pat => !env.fnmatchLower (pyLower att.filename) (pyLower pat)
             | none => false) then
      none
    else if env.is_mime_type_supported att.payload_mime then
      some (attachmentTask env message rule correspondent_id att)
    else
      none)
  ([QueueEvent.chordQueued rule.pk message.uid consume_tasks],
   consume_tasks.length)

/-- `MailAccountHandler._process_eml`: queue the message itself as one task. -/
def _process_eml (env : MailEnv) (message : MailMessageRec) (rule : MailRuleRec)
    (correspondent_id : Option Int) : List QueueEvent × Nat :=
  ([QueueEvent.chordQueued rule.pk message.uid
      [emlTask env message rule correspondent_id]], 1)

/-- `MailAccountHandler._handle_message`: skip immediately (nothing queued)
when the rule consumes attachments only and the message has none; otherwise
process eml and/or attachments per the consumption scope.  `correspondent_id`
stands for the result of `_get_correspondent` (a database lookup). -/
def _handle_message (env : MailEnv) (message : MailMessageRec)
    (rule : MailRuleRec) (correspondent_id : Option Int) :
    List QueueEvent × Nat :=
  if message.attachments.isEmpty ∧
      rule.consumption_scope = .ATTACHMENTS_ONLY then
    ([], 0)
  else
    let emlPart :=
      if rule.consumption_scope = .EML_ONLY ∨
          rule.consumption_scope = .EVERYTHING then
        _process_eml env message rule correspondent_id
      else ([], 0)
    let attPart :=
      if rule.consumption_scope = .ATTACHMENTS_ONLY ∨
          rule.consumption_scope = .EVERYTHING then
        _process_attachments env message rule correspondent_id
      else ([], 0)
    (emlPart.1 ++ attPart.1, emlPart.2 + attPart.2)

/-- The `ProcessedMail.objects.filter(rule=…, uid=…, folder=…).exists()`
ledger test, over the ledger's (rule pk, folder, uid) keys. -/
def ledgerHas (ledger : List (Nat × String × String)) (rulePk : Nat)
    (folder uid : String) : Bool :=
  ledger.contains (rulePk, folder, uid)

/-- `MailAccountHandler._handle_mail_rule`: select the folder (failure is a
`MailError` for the rule), fetch the matching messages (failure likewise),
then handle each message not already in the ledger for (rule, folder, uid).
Returns the queue events, the count of mails processed and of files queued. -/
def _handle_mail_rule (env : MailEnv) (ledger : List (Nat × String × String))
    (rule : MailRuleRec) (folderOk fetchOk : Bool)
    (messages : List MailMessageRec)
    (correspondentOf : MailMessageRec → Option Int) :
    Except PyExc (List QueueEvent × Nat × Nat) :=
  if !folderOk then
    .error (.mailError
      ("Rule: Folder " ++ rule.folder ++ " does not exist in account"))
  else if !fetchOk then
    .error (.mailError ("Rule: Error while fetching folder " ++ rule.folder))
  else
    .ok (messages.foldl
      (fun acc message =>
        if ledgerHas ledger rule.pk rule.folder message.uid then acc
        else
          (acc.1 ++ (_handle_message env message rule (correspondentOf message)).1,
           acc.2.1 + 1,
           acc.2.2 + (_handle_message env message rule (correspondentOf message)).2))
      ([], 0, 0))

/-- Witness fixtures for the mail-rule run: a trivial environment, an
eml-consuming rule, one already-ledgered message and one fresh message. -/
def envW : MailEnv :=
  ⟨fun _ _ => true, fun _ => true, fun _ => "sanitized"⟩

def ruleW : MailRuleRec :=
  { pk := 1, order := 0, folder := "INBOX", consumption_scope := .EML_ONLY }

def msgLedgered : MailMessageRec := ⟨"9", "old subject", "a@b", []⟩

def msgFresh : MailMessageRec := ⟨"5", "new subject", "a@b", []⟩

/-! ## `consume_file` (`documents/tasks.py`) -/

/-- The Django settings the task reads. -/
structure ConsumeSettings where
  CONSUMER_ENABLE_BARCODES : Bool
  CONSUMER_ENABLE_ASN_BARCODE : Bool
  CONSUMPTION_DIR : String
deriving DecidableEq, Repr

/-- Modelled from the spec: `documents/barcodes.py` is not among the sources
under verification.  Per spec section 4.1 the inspector returns a working PDF
path plus the located barcodes; this record carries the pdf path and the
classification results `consume_file` consumes: `get_separating_barcodes`,
`separate_pages`, and `get_asn_from_barcodes`.  The spec's invariant is that
the working pdf is the original file itself unless the source needed
conversion (TIFF). -/
structure BarcodeInfo where
  pdf_path : String
  separatorPages : List Nat
  splitDocs : List String
  asnFromBarcodes : Option Int
deriving DecidableEq, Repr

/-- Joins path components back with '/'. -/
def joinWithSlash : List (List Char) → List Char
  | [] => []
  | [x] => x
  | x :: xs => x ++ '/' :: joinWithSlash xs

/-- `Path.parent`, rendered as dropping the last '/'-separated component (no
claim inspects its value). -/
def parentDir (p : String) : String :=
  String.mk (joinWithSlash ((splitOnChar '/' p.toList).dropLast))

/-- Filesystem/queue effects of one `consume_file` run. -/
inductive ConsumeEvent
  | saveToDir (doc : String) (newname : Option String) (target : String)
  | unlink (p : String)
  | rmtree (p : String)
  | statusNotify
  | tryConsume (file : String) (ov : DocumentMetadataOverrides)
deriving DecidableEq, Repr

/-- The values `consume_file` returns (or the error it raises). -/
inductive ConsumeOutcome
  | split
  | newDocument
deriving DecidableEq, Repr

/-- The tail of `consume_file`: hand the document to
`Consumer().try_consume_file` with the (possibly asn-updated) overrides;
a null document raises `ConsumerError`. -/
def consumeTail (doc : ConsumableDocument) (ov : DocumentMetadataOverrides)
    (consumerReturnsDoc : Bool) :
    List ConsumeEvent × Except PyExc ConsumeOutcome :=
  ([ConsumeEvent.tryConsume doc.original_file ov],
   if consumerReturnsDoc then .ok .newDocument
   else .error (.other "ConsumerError: Returned document was null"))

/-- `consume_file`: scan for barcodes when either barcode setting is enabled;
when splitting is enabled, separator pages exist and the split produced
outputs, save each output (positionally prefixed when an override filename is
set), delete the split copies, their directory, the original file and (for
TIFF) the generated working pdf, notify, and return the split outcome;
otherwise optionally read the ASN into the overrides and consume the file. -/
def consume_file (st : ConsumeSettings) (info : BarcodeInfo)
    (doc : ConsumableDocument) (ov : DocumentMetadataOverrides)
    (consumerReturnsDoc : Bool) :
    List ConsumeEvent × Except PyExc ConsumeOutcome :=
  if st.CONSUMER_ENABLE_BARCODES || st.CONSUMER_ENABLE_ASN_BARCODE then
    if st.CONSUMER_ENABLE_BARCODES && !info.separatorPages.isEmpty &&
        !info.splitDocs.isEmpty then
      ((info.splitDocs.enum.map (fun nd =>
          [ConsumeEvent.saveToDir nd.2
            (ov.filename.map (fun f => toString nd.1 ++ "_" ++ f))
            (if doc.source ≠ .CONSUME_FOLDER then st.CONSUMPTION_DIR
             else parentDir doc.original_file),
           ConsumeEvent.unlink nd.2])).flatten
        ++ [ConsumeEvent.rmtree (parentDir (info.splitDocs.headD ""))]
        ++ [ConsumeEvent.unlink doc.original_file]
        ++ (if doc.mime_type = some "image/tiff" then
              [ConsumeEvent.unlink info.pdf_path]
            else [])
        ++ [ConsumeEvent.statusNotify],
       .ok .split)
    else
      consumeTail doc
        (if st.CONSUMER_ENABLE_ASN_BARCODE then
          { ov with asn := info.asnFromBarcodes }
         else ov)
        consumerReturnsDoc
  else
    consumeTail doc ov consumerReturnsDoc

/-! ## `update_document_archive_file` (`documents/tasks.py`) -/

/-- Which step of the task raises, if any. -/
inductive ArchiveFailPoint
  | noFailure
  | parseRaises
  | thumbnailRaises
  | moveArchiveRaises
  | moveThumbnailRaises
  | indexCommitRaises
deriving DecidableEq, Repr

/-- Database state the task touches: whether the checksum/content/
archive_filename row update is in effect. -/
structure DbState where
  rowUpdated : Bool
deriving DecidableEq, Repr

/-- Filesystem state the task touches (filesystem mutations cannot be rolled
back by a database transaction). -/
structure FsState where
  archiveMoved : Bool
  thumbnailMoved : Bool
deriving DecidableEq, Repr

/-- `with transaction.atomic():` — run the body; if it raises, the database
changes are rolled back to the state at entry, while the filesystem effects
already performed remain. -/
def runAtomic (body : DbState × FsState → (DbState × FsState) × Option PyExc)
    (db : DbState) (fs : FsState) : (DbState × FsState) × Option PyExc :=
  match body (db, fs) with
  | ((_, fs'), some ex) => ((db, fs'), some ex)
  | ((db', fs'), none) => ((db', fs'), none)

/-- The body of the task's atomic block: update the document row (checksum,
content, archive filename), then under the media file lock move the archive
file and the thumbnail into place. -/
def archiveTxBody (fail : ArchiveFailPoint) (s : DbState × FsState) :
    (DbState × FsState) × Option PyExc :=
  let s1 : DbState × FsState := (⟨true⟩, s.2)
  if fail = .moveArchiveRaises then
    (s1, some (.other "shutil.move archive raised"))
  else
    let s2 : DbState × FsState := (s1.1, ⟨true, s1.2.thumbnailMoved⟩)
    if fail = .moveThumbnailRaises then
      (s2, some (.other "shutil.move thumbnail raised"))
    else
      ((s2.1, ⟨s2.2.archiveMoved, true⟩), none)

/-- What one run of `update_document_archive_file` left behind. -/
structure ArchiveRun where
  rowCommitted : Bool
  archiveMoved : Bool
  thumbnailMoved : Bool
  indexUpdated : Bool
  errorLogged : Bool
  cleanupRan : Bool
deriving DecidableEq, Repr

/-- `update_document_archive_file`: parse and produce a thumbnail; if the
parser produced an archive file, update the row and move the files inside
`transaction.atomic()`, then update the search index in a writer scope; every
exception is caught and logged (`logger.exception`) and `parser.cleanup()`
runs in the `finally` block. -/
def update_document_archive_file (hasArchivePath : Bool)
    (fail : ArchiveFailPoint) : ArchiveRun :=
  if fail = .parseRaises || fail = .thumbnailRaises then
    ⟨false, false, false, false, true, true⟩
  else if hasArchivePath then
    match runAtomic (archiveTxBody fail) ⟨false⟩ ⟨false, false⟩ with
    | ((db, fs), some _) =>
      ⟨db.rowUpdated, fs.archiveMoved, fs.thumbnailMoved, false, true, true⟩
    | ((db, fs), none) =>
      if fail = .indexCommitRaises then
        ⟨db.rowUpdated, fs.archiveMoved, fs.thumbnailMoved, false, true, true⟩
      else
        ⟨db.rowUpdated, fs.archiveMoved, fs.thumbnailMoved, true, false, true⟩
  else
    ⟨false, false, false, false, false, true⟩

/-! ## Theorems -/

/-- C8: serialization round-trips.  A `ConsumableDocument` whose path is
already resolved and whose mime type is populated is reconstructed exactly by
`from_dict ∘ as_dict`, without re-running mime detection (the Bool is
`false`); and `DocumentMetadataOverrides` round-trips unconditionally. -/
theorem C8_serialization_roundtrip :
    (∀ (fs : FileSystem) (d : ConsumableDocument) (m : String),
      fs.resolve d.original_file = d.original_file →
      d.mime_type = some m →
      d.as_dict.from_dict fs = .ok (d, false)) ∧
    (∀ o : DocumentMetadataOverrides,
      DocumentMetadataOverrides.from_dict (some o.as_dict) = o) := by
  constructor
  · intro fs d m hres hmime
    obtain ⟨s, p, mt⟩ := d
    simp only at hres hmime
    subst hmime
    cases s <;>
      simp [ConsumableDocument.as_dict, ConsumableDict.from_dict,
        DocumentSource.ofInt, DocumentSource.toInt, ConsumableDocument.init, hres]
  · intro o
    obtain ⟨f, t, c, dt, tg, cr, a, ow⟩ := o
    cases cr <;>
      simp [DocumentMetadataOverrides.as_dict, DocumentMetadataOverrides.from_dict,
        PyDateTime.isoformat, isoparse]

/-- C8 witness: the round-trip at a concrete document and filesystem. -/
theorem C8_serialization_roundtrip_witness :
    (ConsumableDocument.as_dict
        ⟨.MAIL_FETCH, "/tmp/paperless-mail-x", some "application/pdf"⟩).from_dict
        ⟨fun p => p, fun _ => "text/plain"⟩ =
      .ok (⟨.MAIL_FETCH, "/tmp/paperless-mail-x", some "application/pdf"⟩, false) :=
  C8_serialization_roundtrip.1 ⟨fun p => p, fun _ => "text/plain"⟩
    ⟨.MAIL_FETCH, "/tmp/paperless-mail-x", some "application/pdf"⟩
    "application/pdf" rfl rfl

/-- C10 counterexample: `TagMailAction("")` constructs successfully (keyword
mode with the empty keyword), yet `get_criteria` reaches the branch the code
marks unreachable, contradicting the claim that it never does. -/
theorem C10_counterexample :
    TagMailAction.init "".toList = .ok ⟨none, some []⟩ ∧
    TagMailAction.get_criteria ⟨none, some []⟩ =
      .error (.valueError "This should never happen.") := by
  constructor <;> rfl

/-- C10 (amended): in apple mode a two-part split with an unsupported color
raises `MailError` and any other number of parts raises `ValueError`; every
successfully constructed action has exactly one of color/keyword non-None; and
`get_criteria` reaches its "unreachable" branch exactly when the keyword is
the empty string (as for the empty parameter). -/
theorem C10_tag_action_amended :
    (∀ p x c, appleMode p → splitOnChar ':' p = [x, c] →
      validAppleColor (pyLower (pyStrip c)) = false →
      TagMailAction.init p = .error (.mailError "Not a valid AppleMail tag color.")) ∧
    (∀ p, appleMode p → (splitOnChar ':' p).length ≠ 2 →
      ∃ m, TagMailAction.init p = .error (.valueError m)) ∧
    (∀ p a, TagMailAction.init p = .ok a →
      ((a.color = none) ↔ a.keyword ≠ none) ∧
      (a.get_criteria = .error (.valueError "This should never happen.") ↔
        a.keyword = some [])) := by
  refine ⟨?_, ?_, ?_⟩
  · intro p x c happle hsplit hcolor
    simp [TagMailAction.init, happle, hsplit, hcolor]
  · intro p happle hlen
    simp only [TagMailAction.init, happle, if_true]
    match hs : splitOnChar ':' p with
    | [] => exact ⟨_, rfl⟩
    | [_] => exact ⟨_, rfl⟩
    | [_, c] => rw [hs] at hlen; simp at hlen
    | _ :: _ :: _ :: _ => exact ⟨_, rfl⟩
  · intro p a hinit
    by_cases happle : appleMode p
    · simp only [TagMailAction.init, happle, if_true] at hinit
      match hs : splitOnChar ':' p with
      | [] => rw [hs] at hinit; exact absurd hinit (by simp)
      | [_] => rw [hs] at hinit; exact absurd hinit (by simp)
      | [x, c] =>
        rw [hs] at hinit
        by_cases hv : validAppleColor (pyLower (pyStrip c))
        · simp only [hv, if_true] at hinit
          obtain rfl : a = ⟨some (pyStrip c), none⟩ := by
            cases hinit; rfl
          have hne : pyStrip c ≠ [] := by
            intro h
            rw [h] at hv
            exact absurd hv (by decide)
          refine ⟨by simp, ?_⟩
          simp [TagMailAction.get_criteria, pyTruthy, hne]
        · simp [hv] at hinit
      | _ :: _ :: _ :: _ => rw [hs] at hinit; exact absurd hinit (by simp)
    · simp only [TagMailAction.init, happle, if_false] at hinit
      obtain rfl : a = ⟨none, some p⟩ := by cases hinit; rfl
      refine ⟨by simp, ?_⟩
      rcases p with _ | ⟨c, cs⟩
      · simp [TagMailAction.get_criteria, pyTruthy]
      · simp [TagMailAction.get_criteria, pyTruthy]

/-- C10 witness: the amended theorem applied at the concrete parameter
"apple:pink" (an unsupported color). -/
theorem C10_tag_action_amended_witness :
    TagMailAction.init "apple:pink".toList =
      .error (.mailError "Not a valid AppleMail tag color.") :=
  C10_tag_action_amended.1 "apple:pink".toList "apple".toList "pink".toList
    (by decide) (by decide) (by decide)

theorem handle_account_foldl (runRule : MailRuleRec → Except PyExc Nat)
    (rs : List MailRuleRec) (l : List Nat) (n : Nat) :
    (rs.foldl
        (fun (acc : List Nat × Nat) (r : MailRuleRec) =>
          match runRule r with
          | .ok k => (acc.1 ++ [r.pk], acc.2 + k)
          | .error _ => (acc.1 ++ [r.pk], acc.2))
        (l, n)).1 = l ++ rs.map (fun r => r.pk) := by
  induction rs generalizing l n with
  | nil => simp
  | cons r rs ih =>
    cases hr : runRule r <;> simp [hr, ih]

/-- C3: once login succeeds, every rule of the account is evaluated, in
ascending `order`; the set and order of rules evaluated does not depend on the
per-rule outcomes, so an exception in rule N never prevents rule N+1. -/
theorem C3_rule_exceptions_isolated
    (primary : LoginAttemptResult) (utf8 : Bool) (account : String)
    (rules : List MailRuleRec) (runRule runRule' : MailRuleRec → Except PyExc Nat)
    (mech : AuthMech)
    (hlogin : mailbox_login primary utf8 account = .ok mech) :
    (handle_mail_account primary utf8 account rules runRule).rulesEvaluated
        = (rulesOrderedBy rules).map (fun r => r.pk) ∧
    (handle_mail_account primary utf8 account rules runRule).rulesEvaluated
        = (handle_mail_account primary utf8 account rules runRule').rulesEvaluated ∧
    (rulesOrderedBy rules).Pairwise (fun a b => a.order ≤ b.order) ∧
    (rulesOrderedBy rules).Perm rules := by
  have heval : ∀ f : MailRuleRec → Except PyExc Nat,
      (handle_mail_account primary utf8 account rules f).rulesEvaluated
        = (rulesOrderedBy rules).map (fun r => r.pk) := by
    intro f
    unfold handle_mail_account
    rw [hlogin]
    exact handle_account_foldl f (rulesOrderedBy rules) [] 0
  refine ⟨heval runRule, (heval runRule).trans (heval runRule').symm, ?_, ?_⟩
  · have := @List.sorted_mergeSort MailRuleRec
      (fun a b : MailRuleRec => decide (a.order ≤ b.order)) ?_ ?_ rules
    · simpa [rulesOrderedBy] using this
    · intro a b c hab hbc; simp at *; omega
    · intro a b; simp; omega
  · simpa [rulesOrderedBy] using List.mergeSort_perm rules _

/-- C3 witness: a two-rule account where the first rule (by order) fails. -/
theorem C3_rule_exceptions_isolated_witness :
    (handle_mail_account .ok true "acct"
        [mkRule 2 20 "INBOX", mkRule 1 10 "INBOX"]
        (fun r => if r.pk = 1 then .error (.other "boom") else .ok 1)).rulesEvaluated
      = (rulesOrderedBy [mkRule 2 20 "INBOX", mkRule 1 10 "INBOX"]).map (fun r => r.pk) :=
  (C3_rule_exceptions_isolated .ok true "acct"
    [mkRule 2 20 "INBOX", mkRule 1 10 "INBOX"]
    (fun r => if r.pk = 1 then .error (.other "boom") else .ok 1)
    (fun _ => .ok 0) .primary rfl).1

/-- C4: the primary mechanism is attempted first (success means mechanism
`primary`); the AUTH=PLAIN fallback is reached only when the primary attempt
raised `UnicodeEncodeError`; any other failure (including a failing fallback)
raises `MailError`; and `handle_mail_account` re-raises that `MailError`
before any rule is evaluated. -/
theorem C4_login_fallback_scope :
    (∀ utf8 account, mailbox_login .ok utf8 account = .ok .primary) ∧
    (∀ primary utf8 account,
      mailbox_login primary utf8 account = .ok .authPlainUtf8 →
      primary = .unicodeEncodeError) ∧
    (∀ utf8 account, mailbox_login .otherError utf8 account =
      .error (.mailError ("Error while authenticating account " ++ account))) ∧
    (∀ account, mailbox_login .unicodeEncodeError false account =
      .error (.mailError ("Error while authenticating account " ++ account))) ∧
    (∀ primary utf8 account rules runRule e,
      mailbox_login primary utf8 account = .error e →
      handle_mail_account primary utf8 account rules runRule = ⟨[], 0, some e⟩) := by
  refine ⟨fun _ _ => rfl, ?_, fun _ _ => rfl, fun _ => rfl, ?_⟩
  · intro primary utf8 account h
    cases primary with
    | ok => exact absurd h (by simp [mailbox_login])
    | unicodeEncodeError => rfl
    | otherError => exact absurd h (by simp [mailbox_login])
  · intro primary utf8 account rules runRule e h
    unfold handle_mail_account
    rw [h]

/-- C4 witness: a non-encoding login failure aborts the account before any
rule is evaluated. -/
theorem C4_login_fallback_scope_witness :
    handle_mail_account .otherError true "acct" [mkRule 1 10 "INBOX"] (fun _ => .ok 5)
      = ⟨[], 0, some (.mailError "Error while authenticating account acct")⟩ :=
  C4_login_fallback_scope.2.2.2.2 .otherError true "acct" [mkRule 1 10 "INBOX"]
    (fun _ => .ok 5) (.mailError "Error while authenticating account acct") rfl

/-- C1 counterexample: a batch with one failed ingestion request.  The claim
says the mail action still runs; in the code only `error_callback` runs, which
writes the FAILED ledger row and never invokes `post_consume`. -/
theorem C1_counterexample :
    chordCompletion [.success, .failure] (mkRule 1 10 "INBOX") "42" true true
      = [.ledgerWrite ⟨1, "INBOX", "42", .FAILED⟩] ∧
    ChordEvent.postConsumeInvoked 1 "42" ∉
      chordCompletion [.success, .failure] (mkRule 1 10 "INBOX") "42" true true := by
  refine ⟨rfl, ?_⟩
  decide

/-- C1 (amended): the mail action and ledger write happen only downstream of
the full batch's terminal states (they are functions of the complete result
list); when every request succeeds, `post_consume` is invoked and a ledger row
is written (SUCCESS, or FAILED with the error re-raised when the mail-side
action itself fails); when any request fails, the mail action is not applied
and a FAILED ledger row is written for that (rule, folder, uid). -/
theorem C1_batch_completion_amended (results : List TaskResult)
    (rule : MailRuleRec) (uid : String) (connectOk actionOk : Bool) :
    (results.all (fun r => r = .success) = true →
      chordCompletion results rule uid connectOk actionOk =
        (apply_mail_action rule uid connectOk actionOk).1 ∧
      (connectOk = true → actionOk = true →
        chordCompletion results rule uid connectOk actionOk =
          [.postConsumeInvoked rule.pk uid,
           .ledgerWrite ⟨rule.pk, rule.folder, uid, .SUCCESS⟩])) ∧
    (results.all (fun r => r = .success) = false →
      chordCompletion results rule uid connectOk actionOk =
        [.ledgerWrite ⟨rule.pk, rule.folder, uid, .FAILED⟩] ∧
      ∀ u, ChordEvent.postConsumeInvoked rule.pk u ∉
        chordCompletion results rule uid connectOk actionOk) := by
  constructor
  · intro hall
    refine ⟨by simp [chordCompletion, hall], ?_⟩
    intro hc ha
    subst hc; subst ha
    simp [chordCompletion, hall, apply_mail_action]
  · intro hfail
    refine ⟨by simp [chordCompletion, hfail, error_callback], ?_⟩
    intro u
    simp [chordCompletion, hfail, error_callback]

/-- C1 witness: the amended behavior at a concrete failed batch. -/
theorem C1_batch_completion_amended_witness :
    chordCompletion [.failure] (mkRule 3 0 "INBOX") "7" true true
      = [.ledgerWrite ⟨3, "INBOX", "7", .FAILED⟩] :=
  ((C1_batch_completion_amended [.failure] (mkRule 3 0 "INBOX") "7" true true).2
    rfl).1

theorem process_attachments_event_uid (env : MailEnv) (m : MailMessageRec)
    (r : MailRuleRec) (c : Option Int) :
    ∀ ev ∈ (_process_attachments env m r c).1, QueueEvent.uid ev = m.uid := by
  simp [_process_attachments, QueueEvent.uid]

theorem process_eml_event_uid (env : MailEnv) (m : MailMessageRec)
    (r : MailRuleRec) (c : Option Int) :
    ∀ ev ∈ (_process_eml env m r c).1, QueueEvent.uid ev = m.uid := by
  simp [_process_eml, QueueEvent.uid]

theorem handle_message_event_uid (env : MailEnv) (m : MailMessageRec)
    (r : MailRuleRec) (c : Option Int) :
    ∀ ev ∈ (_handle_message env m r c).1, QueueEvent.uid ev = m.uid := by
  intro ev hev
  unfold _handle_message at hev
  split at hev
  · simp at hev
  · simp only [List.mem_append] at hev
    rcases hev with h | h
    · split at h
      · exact process_eml_event_uid env m r c ev h
      · simp at h
    · split at h
      · exact process_attachments_event_uid env m r c ev h
      · simp at h

theorem rule_loop_events_not_ledgered (env : MailEnv)
    (ledger : List (Nat × String × String)) (rule : MailRuleRec)
    (corrOf : MailMessageRec → Option Int) (messages : List MailMessageRec) :
    ∀ acc : List QueueEvent × Nat × Nat,
      (∀ ev ∈ acc.1,
        ledgerHas ledger rule.pk rule.folder (QueueEvent.uid ev) = false) →
      ∀ ev ∈ (messages.foldl
          (fun acc message =>
            if ledgerHas ledger rule.pk rule.folder message.uid then acc
            else
              (acc.1 ++ (_handle_message env message rule (corrOf message)).1,
               acc.2.1 + 1,
               acc.2.2 + (_handle_message env message rule (corrOf message)).2))
          acc).1,
        ledgerHas ledger rule.pk rule.folder (QueueEvent.uid ev) = false := by
  induction messages with
  | nil => intro acc hacc; simpa using hacc
  | cons m ms ih =>
    intro acc hacc
    simp only [List.foldl_cons]
    apply ih
    by_cases hm : ledgerHas ledger rule.pk rule.folder m.uid
    · simpa [hm] using hacc
    · simp only [hm, if_neg, Bool.false_eq_true, not_false_eq_true, if_false]
      intro ev hev
      simp only [List.mem_append] at hev
      rcases hev with h | h
      · exact hacc ev h
      · rw [handle_message_event_uid env m rule (corrOf m) ev h]
        simpa using hm

/-- C2: a message whose (rule, folder, uid) key is already in the
`ProcessedMail` ledger is skipped by `_handle_mail_rule`: no consume task is
extracted or enqueued for that uid and no chord (hence no mail action) is
queued for it in that run. -/
theorem C2_ledgered_message_skipped (env : MailEnv)
    (ledger : List (Nat × String × String)) (rule : MailRuleRec)
    (messages : List MailMessageRec) (corrOf : MailMessageRec → Option Int)
    (events : List QueueEvent) (mailsProcessed filesProcessed : Nat)
    (hrun : _handle_mail_rule env ledger rule true true messages corrOf
      = .ok (events, mailsProcessed, filesProcessed))
    (u : String)
    (hled : ledgerHas ledger rule.pk rule.folder u = true) :
    ∀ ev ∈ events, QueueEvent.uid ev ≠ u := by
  intro ev hev
  unfold _handle_mail_rule at hrun
  simp only [Bool.not_true, Bool.false_eq_true, if_false, reduceIte,
    Except.ok.injEq] at hrun
  have hmem : ev ∈ (messages.foldl
      (fun acc message =>
        if ledgerHas ledger rule.pk rule.folder message.uid then acc
        else
          (acc.1 ++ (_handle_message env message rule (corrOf message)).1,
           acc.2.1 + 1,
           acc.2.2 + (_handle_message env message rule (corrOf message)).2))
      ([], 0, 0)).1 := by
    have := congrArg (fun p : List QueueEvent × Nat × Nat => p.1) hrun
    simp only at this
    rw [this]
    exact hev
  have hnot := rule_loop_events_not_ledgered env ledger rule corrOf messages
    ([], 0, 0) (by simp) ev hmem
  intro hequ
  rw [hequ] at hnot
  rw [hled] at hnot
  exact Bool.true_eq_false.mp hnot

/-- C2 witness: in a run over one ledgered and one fresh message, the queued
chord is for the fresh uid, not the ledgered one. -/
theorem C2_ledgered_message_skipped_witness :
    QueueEvent.uid (QueueEvent.chordQueued 1 "5" [emlTask envW msgFresh ruleW none])
      ≠ "9" :=
  C2_ledgered_message_skipped envW [(1, "INBOX", "9")] ruleW
    [msgLedgered, msgFresh] (fun _ => none) _ _ _ rfl "9" rfl
    (QueueEvent.chordQueued 1 "5" [emlTask envW msgFresh ruleW none])
    (by decide)

/-- C9: `_process_attachments` queues the batch unconditionally — even when
every attachment is filtered out the chord is queued with an empty batch, and
an empty batch's completion still runs the mail action and writes a SUCCESS
ledger row; by contrast `_handle_message` with attachments-only scope and a
message without attachments returns 0 before anything is queued. -/
theorem C9_empty_batch_vs_no_attachments :
    (∀ (env : MailEnv) (message : MailMessageRec) (rule : MailRuleRec)
        (cid : Option Int), ∃ tasks,
      (_process_attachments env message rule cid).1
        = [QueueEvent.chordQueued rule.pk message.uid tasks]) ∧
    (∀ (env : MailEnv) (message : MailMessageRec) (rule : MailRuleRec)
        (cid : Option Int),
      rule.attachment_type = .ATTACHMENTS_ONLY →
      (∀ att ∈ message.attachments, att.content_disposition ≠ "attachment") →
      (_process_attachments env message rule cid).1
        = [QueueEvent.chordQueued rule.pk message.uid []]) ∧
    (∀ (rule : MailRuleRec) (uid : String),
      chordCompletion [] rule uid true true
        = [.postConsumeInvoked rule.pk uid,
           .ledgerWrite ⟨rule.pk, rule.folder, uid, .SUCCESS⟩]) ∧
    (∀ (env : MailEnv) (message : MailMessageRec) (rule : MailRuleRec)
        (cid : Option Int),
      message.attachments ≠ [] →
      rule.consumption_scope = .ATTACHMENTS_ONLY →
      (_handle_message env message rule cid).1
        = (_process_attachments env message rule cid).1) ∧
    (∀ (env : MailEnv) (message : MailMessageRec) (rule : MailRuleRec)
        (cid : Option Int),
      message.attachments = [] →
      rule.consumption_scope = .ATTACHMENTS_ONLY →
      _handle_message env message rule cid = ([], 0)) := by
  refine ⟨?_, ?_, ?_, ?_, ?_⟩
  · intro env message rule cid
    exact ⟨_, rfl⟩
  · intro env message rule cid htype hdisp
    simp only [_process_attachments]
    rw [List.filterMap_eq_nil_iff.mpr]
    intro att hatt
    simp [hdisp att hatt, htype]
  · intro rule uid
    rfl
  · intro env message rule cid hne hscope
    simp [_handle_message, hne, hscope]
  · intro env message rule cid hempty hscope
    simp [_handle_message, hempty, hscope]

/-- C9 witness: a rule that only accepts real attachments, applied to a
message whose sole attachment is inline, still queues an empty chord. -/
theorem C9_empty_batch_vs_no_attachments_witness :
    (_process_attachments envW
        ⟨"5", "s", "a@b", [⟨"pic.png".toList, "inline", "image/png"⟩]⟩
        { pk := 1, order := 0, folder := "INBOX",
          attachment_type := .ATTACHMENTS_ONLY } none).1
      = [QueueEvent.chordQueued 1 "5" []] :=
  C9_empty_batch_vs_no_attachments.2.1 envW
    ⟨"5", "s", "a@b", [⟨"pic.png".toList, "inline", "image/png"⟩]⟩
    { pk := 1, order := 0, folder := "INBOX",
      attachment_type := .ATTACHMENTS_ONLY } none rfl
    (by intro att hatt; simp at hatt; subst hatt; decide)

/-- C5: on the split path (barcodes enabled, separators exist, split outputs
nonempty) the task returns the split outcome, saves every output with the
positional "n_" filename prefix into the target directory, deletes the
original file and the working copy (the working pdf equals the original
unless the source was TIFF, in which case it is deleted explicitly), and
never hands anything to the consumer. -/
theorem C5_split_path (st : ConsumeSettings) (info : BarcodeInfo)
    (doc : ConsumableDocument) (ov : DocumentMetadataOverrides)
    (consumerReturnsDoc : Bool)
    (hbar : st.CONSUMER_ENABLE_BARCODES = true)
    (hsep : info.separatorPages.isEmpty = false)
    (hdocs : info.splitDocs.isEmpty = false)
    (hwork : doc.mime_type ≠ some "image/tiff" →
      info.pdf_path = doc.original_file) :
    (consume_file st info doc ov consumerReturnsDoc).2 = .ok .split ∧
    (∀ nd ∈ info.splitDocs.enum,
      ConsumeEvent.saveToDir nd.2
          (ov.filename.map (fun f => toString nd.1 ++ "_" ++ f))
          (if doc.source ≠ .CONSUME_FOLDER then st.CONSUMPTION_DIR
           else parentDir doc.original_file)
        ∈ (consume_file st info doc ov consumerReturnsDoc).1) ∧
    ConsumeEvent.unlink doc.original_file
      ∈ (consume_file st info doc ov consumerReturnsDoc).1 ∧
    ConsumeEvent.unlink info.pdf_path
      ∈ (consume_file st info doc ov consumerReturnsDoc).1 ∧
    (∀ f ov', ConsumeEvent.tryConsume f ov'
      ∉ (consume_file st info doc ov consumerReturnsDoc).1) := by
  simp only [consume_file, hbar, hsep, hdocs, Bool.true_or, Bool.not_false,
    Bool.and_self, Bool.true_and, Bool.and_true, if_true]
  refine ⟨trivial, ?_, ?_, ?_, ?_⟩
  · intro nd hnd
    simp only [List.mem_append]
    refine Or.inl (Or.inl (Or.inl (Or.inl ?_)))
    rw [List.mem_flatten]
    exact ⟨_, List.mem_map_of_mem _ hnd, by simp⟩
  · simp
  · by_cases htiff : doc.mime_type = some "image/tiff"
    · simp [htiff]
    · rw [hwork htiff]
      simp
  · intro f ov' hmem
    simp only [List.mem_append, List.mem_flatten, List.mem_map] at hmem
    rcases hmem with ((((⟨l, ⟨nd, _, hl⟩, hev⟩ | h) | h) | h) | h)
    · rw [← hl] at hev
      simp at hev
    · simp at h
    · simp at h
    · split at h <;> simp at h
    · simp at h

/-- C5 witness: a concrete two-output split of an uploaded PDF. -/
theorem C5_split_path_witness :
    (consume_file ⟨true, false, "/consume"⟩
        ⟨"/tmp/in.pdf", [2], ["/tmp/split/0.pdf", "/tmp/split/1.pdf"], none⟩
        ⟨.API_UPLOAD, "/tmp/in.pdf", some "application/pdf"⟩
        { filename := some "scan.pdf" } true).2 = .ok .split :=
  (C5_split_path ⟨true, false, "/consume"⟩
    ⟨"/tmp/in.pdf", [2], ["/tmp/split/0.pdf", "/tmp/split/1.pdf"], none⟩
    ⟨.API_UPLOAD, "/tmp/in.pdf", some "application/pdf"⟩
    { filename := some "scan.pdf" } true rfl rfl rfl (fun _ => rfl)).1

/-- C6: on the no-split path the overrides reach the consumer with every
caller-supplied field unchanged except asn, which is overwritten with the
barcode scan result exactly when ASN scanning is enabled; in particular a
caller-unset asn ends up populated only when ASN scanning is enabled and the
scan found a value. -/
theorem C6_no_split_overrides_frame (st : ConsumeSettings) (info : BarcodeInfo)
    (doc : ConsumableDocument) (ov : DocumentMetadataOverrides)
    (consumerReturnsDoc : Bool)
    (hnosplit : (st.CONSUMER_ENABLE_BARCODES && !info.separatorPages.isEmpty &&
      !info.splitDocs.isEmpty) = false) :
    ∃ ov',
      (consume_file st info doc ov consumerReturnsDoc).1
        = [ConsumeEvent.tryConsume doc.original_file ov'] ∧
      ov'.filename = ov.filename ∧
      ov'.title = ov.title ∧
      ov'.correspondent_id = ov.correspondent_id ∧
      ov'.document_type_id = ov.document_type_id ∧
      ov'.tag_ids = ov.tag_ids ∧
      ov'.created = ov.created ∧
      ov'.owner_id = ov.owner_id ∧
      ov'.asn = (if st.CONSUMER_ENABLE_ASN_BARCODE then info.asnFromBarcodes
                 else ov.asn) ∧
      (ov.asn = none → ∀ v, ov'.asn = some v →
        st.CONSUMER_ENABLE_ASN_BARCODE = true ∧
        info.asnFromBarcodes = some v) := by
  cases hasn : st.CONSUMER_ENABLE_ASN_BARCODE with
  | true =>
    refine ⟨{ ov with asn := info.asnFromBarcodes }, ?_, rfl, rfl, rfl, rfl,
      rfl, rfl, rfl, by simp, ?_⟩
    · simp [consume_file, hasn, hnosplit, consumeTail]
    · intro _ v hv
      exact ⟨rfl, hv⟩
  | false =>
    cases hbar : st.CONSUMER_ENABLE_BARCODES with
    | true =>
      have hcond : ¬(¬info.separatorPages = [] ∧ ¬info.splitDocs = []) := by
        rw [hbar] at hnosplit
        simp only [Bool.true_and, Bool.and_eq_false_iff] at hnosplit
        rintro ⟨h1, h2⟩
        rcases hnosplit with h | h <;> simp_all
      refine ⟨ov, ?_, rfl, rfl, rfl, rfl, rfl, rfl, rfl, by simp [hasn], ?_⟩
      · simp [consume_file, hasn, hbar, consumeTail, hcond]
      · intro h0 v hv
        rw [h0] at hv
        exact absurd hv (by simp)
    | false =>
      refine ⟨ov, ?_, rfl, rfl, rfl, rfl, rfl, rfl, rfl, by simp [hasn], ?_⟩
      · simp [consume_file, hasn, hbar, consumeTail]
      · intro h0 v hv
        rw [h0] at hv
        exact absurd hv (by simp)

/-- C6 witness: ASN scanning enabled, no separators; the caller-unset asn is
populated from the barcode scan and all other fields pass through. -/
theorem C6_no_split_overrides_frame_witness :
    ∃ ov',
      (consume_file ⟨false, true, "/consume"⟩ ⟨"/tmp/in.pdf", [], [], some 17⟩
          ⟨.MAIL_FETCH, "/tmp/in.pdf", some "application/pdf"⟩
          { title := some "t" } true).1
        = [ConsumeEvent.tryConsume "/tmp/in.pdf" ov'] ∧
      ov'.filename = none ∧
      ov'.title = some "t" ∧
      ov'.correspondent_id = none ∧
      ov'.document_type_id = none ∧
      ov'.tag_ids = none ∧
      ov'.created = none ∧
      ov'.owner_id = none ∧
      ov'.asn = (if (true : Bool) then some ((17 : Int)) else none) ∧
      ((none : Option Int) = none → ∀ v : Int, ov'.asn = some v →
        (true : Bool) = true ∧ (some ((17 : Int)) : Option Int) = some v) :=
  C6_no_split_overrides_frame ⟨false, true, "/consume"⟩
    ⟨"/tmp/in.pdf", [], [], some 17⟩
    ⟨.MAIL_FETCH, "/tmp/in.pdf", some "application/pdf"⟩
    { title := some "t" } true rfl

/-- C7 counterexample: when the archive-file move fails after the row update,
the row update IS rolled back (the move happens inside the same
`transaction.atomic()` block, by the code's own design comment), contradicting
the claim that it is not rolled back. -/
theorem C7_counterexample :
    (update_document_archive_file true .moveArchiveRaises).rowCommitted = false ∧
    (update_document_archive_file true .moveArchiveRaises).errorLogged = true := by
  constructor <;> rfl

/-- C7 (amended): an index-commit failure after the atomic block leaves the
row update in place (logged, not rolled back); an archive-move failure rolls
the row update back while leaving the filesystem as it was at the failure; a
thumbnail-move failure likewise rolls the row back but the already-performed
archive move persists; and parser cleanup runs on every path. -/
theorem C7_partial_failure_amended :
    (update_document_archive_file true .indexCommitRaises).rowCommitted = true ∧
    (update_document_archive_file true .indexCommitRaises).indexUpdated = false ∧
    (update_document_archive_file true .indexCommitRaises).errorLogged = true ∧
    (update_document_archive_file true .moveArchiveRaises).rowCommitted = false ∧
    (update_document_archive_file true .moveArchiveRaises).archiveMoved = false ∧
    (update_document_archive_file true .moveThumbnailRaises).rowCommitted = false ∧
    (update_document_archive_file true .moveThumbnailRaises).archiveMoved = true ∧
    (∀ fail : ArchiveFailPoint, ∀ hasArchive : Bool,
      (update_document_archive_file hasArchive fail).cleanupRan = true) := by
  refine ⟨rfl, rfl, rfl, rfl, rfl, rfl, rfl, ?_⟩
  intro fail hasArchive
  cases fail <;> cases hasArchive <;> rfl
